import Mathlib

/-!
# Verification of the Tweet-Predictor scoring engine

A shallow embedding of the `TweetAnalyzer` class from `src/main.js` (the
scoring engine of the Tweet-Predictor repository), together with theorems
settling the specification claims about it.

Modelling conventions:

* A JavaScript string is modelled as a `List Nat` of its Unicode code points
  (scalar values).  The JavaScript `String.prototype.length` function
  counts UTF-16 code units, which is modelled by `jsLength` (code points
  below `0x10000` count 1, supplementary-plane code points count 2).
* JavaScript numbers are modelled as exact rationals (`ℚ`).  `Math.round` is
  round-half-up, modelled by `jsRound q = ⌊q + 1/2⌋`.  Double-precision
  evaluation in the source can differ from exact rational evaluation only
  when the exact aggregate lies exactly on a rounding tie (`…*.5`, where
  either neighbour is a nearest integer) or exactly on a comparison
  threshold; no theorem below depends on such a boundary input.
* `String.prototype.toLowerCase`/`toUpperCase` are modelled by their action
  on ASCII letters (`A`–`Z` ↔ `a`–`z`), which is all that the fixed engine
  vocabulary needs; the regex classes `\w`, `\d`, `[A-Z]` of the source are
  ASCII-only exactly as in JavaScript.
* All word lists, threshold bands, weights and output strings are
  transcribed verbatim from `src/main.js` lines 1168–1485.
-/

namespace TweetPredictor

/-- A tweet: the list of Unicode code points of the input string. -/
abbrev Tweet := List Nat

/-- Code points of a Lean string literal, used to transcribe the string
constants of the source. -/
def str (s : String) : Tweet := s.data.map Char.toNat

/-- UTF-16 code units contributed by one code point. -/
def utf16Len (n : Nat) : Nat := if n < 65536 then 1 else 2

/-- JavaScript `string.length`: the number of UTF-16 code units. -/
def jsLength (t : Tweet) : Nat := (t.map utf16Len).sum

/-- The regex class `\w` (no `u` flag): ASCII letter, digit or underscore. -/
def isWordChar (n : Nat) : Bool :=
  decide ((65 ≤ n ∧ n ≤ 90) ∨ (97 ≤ n ∧ n ≤ 122) ∨ (48 ≤ n ∧ n ≤ 57) ∨ n = 95)

/-- The emoji alternation of the source regex
`[\u{1F600}-\u{1F64F}]|[\u{1F300}-\u{1F5FF}]|[\u{1F680}-\u{1F6FF}]|[\u{1F1E0}-\u{1F1FF}]|[\u{2600}-\u{26FF}]|[\u{2700}-\u{27BF}]`:
each match is a single code point in one of the six ranges. -/
def isEmojiChar (n : Nat) : Bool :=
  decide ((0x1F600 ≤ n ∧ n ≤ 0x1F64F) ∨ (0x1F300 ≤ n ∧ n ≤ 0x1F5FF) ∨
    (0x1F680 ≤ n ∧ n ≤ 0x1F6FF) ∨ (0x1F1E0 ≤ n ∧ n ≤ 0x1F1FF) ∨
    (0x2600 ≤ n ∧ n ≤ 0x26FF) ∨ (0x2700 ≤ n ∧ n ≤ 0x27BF))

/-- White space removed by JavaScript `String.prototype.trim`. -/
def isJsWhitespace (n : Nat) : Bool :=
  decide ((9 ≤ n ∧ n ≤ 13) ∨ n = 32 ∨ n = 160 ∨ n = 0x1680 ∨
    (0x2000 ≤ n ∧ n ≤ 0x200A) ∨ n = 0x2028 ∨ n = 0x2029 ∨ n = 0x202F ∨
    n = 0x205F ∨ n = 0x3000 ∨ n = 0xFEFF)

/-- Lower-casing of one code point, restricted to ASCII: non-ASCII cased
letters, which the JavaScript `toLowerCase` also maps, are left fixed
here.  The two maps agree exactly on code points below 128; theorems whose
truth depends on the behaviour outside ASCII carry an explicit
ASCII-confinement hypothesis. -/
def lowerChar (n : Nat) : Nat := if 65 ≤ n ∧ n ≤ 90 then n + 32 else n

/-- Upper-casing of one code point, restricted to ASCII exactly as
`lowerChar` is; the JavaScript `toUpperCase` additionally maps non-ASCII
cased letters, which are left fixed here. -/
def upperChar (n : Nat) : Nat := if 97 ≤ n ∧ n ≤ 122 then n - 32 else n

/-- JavaScript `tweet.toLowerCase()` under the ASCII case mapping
(see `lowerChar` for the extent of the restriction). -/
def toLowerCase (t : Tweet) : Tweet := t.map lowerChar

/-- JavaScript `tweet.toUpperCase()` under the ASCII case mapping
(see `upperChar` for the extent of the restriction). -/
def toUpperCase (t : Tweet) : Tweet := t.map upperChar

/-- Does `hay` start with `needle`? -/
def startsWithSeq : Tweet → Tweet → Bool
  | [], _ => true
  | _ :: _, [] => false
  | a :: as, b :: bs => a == b && startsWithSeq as bs

/-- JavaScript `hay.includes(needle)`: contiguous substring containment. -/
def containsSub (needle : Tweet) : Tweet → Bool
  | [] => needle.isEmpty
  | c :: rest => startsWithSeq needle (c :: rest) || containsSub needle rest

/-- `(l.dropWhile p).length ≤ l.length`, needed for `countHashtags`. -/
theorem length_dropWhile_le (p : Nat → Bool) (l : List Nat) :
    (l.dropWhile p).length ≤ l.length := by
  induction l with
  | nil => simp
  | cons h t ih =>
    by_cases hp : p h
    · simp only [List.dropWhile_cons_of_pos hp]
      exact Nat.le_succ_of_le ih
    · simp [List.dropWhile_cons_of_neg hp]

/-- One step of the left-to-right scan of the global regex `/#\w+/g`: at a
`#` followed by at least one word character the match consumes the maximal
word-character run, otherwise scanning resumes at the next code point.
The structural `fuel` argument only bounds the recursion depth; the scan
never needs more steps than the length of the list (`countHashtagsAux_eq_spec`). -/
def countHashtagsAux : Nat → Tweet → Nat
  | 0, _ => 0
  | _ + 1, [] => 0
  | _ + 1, [_] => 0
  | fuel + 1, c :: d :: rest =>
    if c = 35 ∧ isWordChar d then
      1 + countHashtagsAux fuel ((d :: rest).dropWhile isWordChar)
    else countHashtagsAux fuel (d :: rest)

/-- Number of matches of the global regex `/#\w+/g`.  Used by
`analyzeHashtagFactor`, `generateSuggestions` and `getOptimalPostingTime`,
which all repeat the same `(this.tweet.match(/#\w+/g) || []).length`
expression in the source. -/
def countHashtags (t : Tweet) : Nat := countHashtagsAux t.length t

/-- Number of matches of the emoji regex: code points in the six ranges. -/
def emojiCount (t : Tweet) : Nat := t.countP isEmojiChar

/-- Number of `?` characters (`(this.tweet.match(/\?/g) || []).length`). -/
def questionMarkCount (t : Tweet) : Nat := t.count 63

/-- Number of `!` characters (`(this.tweet.match(/!/g) || []).length`). -/
def exclamationMarkCount (t : Tweet) : Nat := t.count 33

/-- The 29-entry engagement vocabulary of `analyzeEngagementFactor`. -/
def engagementWords : List Tweet :=
  ["what", "how", "why", "when", "where", "think", "thoughts", "opinion",
   "agree", "disagree", "comment", "share", "retweet", "like", "follow",
   "check out", "look at", "see", "amazing", "incredible", "awesome",
   "love", "hate", "best", "worst", "favorite", "poll", "vote",
   "choose"].map str

/-- Positive sentiment vocabulary of `analyzeSentimentFactor`. -/
def positiveWords : List Tweet :=
  ["amazing", "awesome", "brilliant", "excellent", "fantastic", "great",
   "incredible", "outstanding", "perfect", "wonderful", "love", "best",
   "excited", "thrilled", "happy", "successful", "achievement", "win",
   "victory", "breakthrough", "innovation", "growth", "progress"].map str

/-- Negative sentiment vocabulary of `analyzeSentimentFactor`. -/
def negativeWords : List Tweet :=
  ["awful", "terrible", "horrible", "worst", "hate", "disgusting",
   "annoying", "frustrated", "angry", "disappointed", "failed", "failure",
   "problem", "issue", "crisis", "disaster", "unfortunate"].map str

/-- Number of engagement-vocabulary entries contained (case-insensitively)
in the tweet: the variable `engagementWordCount` of the source. -/
def engagementWordCount (t : Tweet) : Nat :=
  engagementWords.countP fun w => containsSub w (toLowerCase t)

/-- Number of positive-vocabulary entries contained in the lowercased
tweet: the variable `positiveCount` of the source. -/
def positiveCount (t : Tweet) : Nat :=
  positiveWords.countP fun w => containsSub w (toLowerCase t)

/-- Number of negative-vocabulary entries contained in the lowercased
tweet: the variable `negativeCount` of the source. -/
def negativeCount (t : Tweet) : Nat :=
  negativeWords.countP fun w => containsSub w (toLowerCase t)

/-- `this.tweet.split(/[.!?]+/).filter(s => s.trim().length > 0)`.
Splitting on single separators and keeping only segments with non-white
content counts the same segments as splitting on separator runs. -/
def sentenceSegments (t : Tweet) : List Tweet :=
  (t.splitOnP fun c => decide (c = 46 ∨ c = 33 ∨ c = 63)).filter
    fun s => s.any fun c => !(isJsWhitespace c)

/-- `analyzeLengthFactor` (src/main.js:1261–1278): first-match if/else-if
chain over `this.tweet.length` (UTF-16 code units). -/
def analyzeLengthFactor (t : Tweet) : ℤ :=
  if 71 ≤ jsLength t ∧ jsLength t ≤ 100 then 10
  else if 50 ≤ jsLength t ∧ jsLength t ≤ 140 then 8
  else if 140 ≤ jsLength t ∧ jsLength t ≤ 200 then 7
  else if jsLength t < 30 then 4
  else if 250 < jsLength t then 3
  else 5

/-- `analyzeHashtagFactor` (src/main.js:1280–1296). -/
def analyzeHashtagFactor (t : Tweet) : ℤ :=
  if countHashtags t = 1 ∨ countHashtags t = 2 then 10
  else if countHashtags t = 3 then 8
  else if countHashtags t = 0 then 6
  else if 3 < countHashtags t then 4
  else 5

/-- `analyzeEmojiFactor` (src/main.js:1298–1314). -/
def analyzeEmojiFactor (t : Tweet) : ℤ :=
  if emojiCount t = 1 ∨ emojiCount t = 2 then 10
  else if emojiCount t = 3 then 8
  else if emojiCount t = 0 then 6
  else if 4 < emojiCount t then 4
  else 5

/-- `analyzeEngagementFactor` (src/main.js:1316–1342): base 5, conditional
bonuses, then `Math.min(score, 10)`. -/
def analyzeEngagementFactor (t : Tweet) : ℤ :=
  min (5 + (if 0 < questionMarkCount t then 2 else 0)
         + (if 0 < exclamationMarkCount t ∧ exclamationMarkCount t ≤ 2 then 1 else 0)
         + (if 1 ≤ engagementWordCount t then 2 else 0)
         + (if 3 ≤ engagementWordCount t then 1 else 0)) 10

/-- `analyzeSentimentFactor` (src/main.js:1344–1379): the three branches on
the vocabulary counts, then `Math.max(1, Math.min(score, 10))`. -/
def analyzeSentimentFactor (t : Tweet) : ℤ :=
  max 1 (min
    (if negativeCount t < positiveCount t then
       8 + min (positiveCount t : ℤ) 2
     else if positiveCount t < negativeCount t then
       4 - min (negativeCount t : ℤ) 2
     else 5) 10)

/-- The `−2` all-lowercase penalty of `analyzeStructureFactor`
(src/main.js:1396): `if (this.tweet === this.tweet.toLowerCase()) score -= 2`. -/
def lowercasePenalty (t : Tweet) : ℤ := if t = toLowerCase t then 2 else 0

/-- The `−3` all-uppercase penalty of `analyzeStructureFactor`
(src/main.js:1397): `if (this.tweet === this.tweet.toUpperCase()) score -= 3`. -/
def uppercasePenalty (t : Tweet) : ℤ := if t = toUpperCase t then 3 else 0

/-- `analyzeStructureFactor` (src/main.js:1381–1400): base 5, structural
bonuses, the two penalties, then `Math.max(1, Math.min(score, 10))`.
`/\d/` and `/[A-Z]/` are ASCII classes. -/
def analyzeStructureFactor (t : Tweet) : ℤ :=
  max 1 (min
    (5 + (if 2 ≤ (sentenceSegments t).length ∧ (sentenceSegments t).length ≤ 4 then 2 else 0)
       + (if t.contains 10 ∧ 100 < jsLength t then 1 else 0)
       + (if t.any (fun c => decide (48 ≤ c ∧ c ≤ 57)) then 1 else 0)
       + (if t.any (fun c => decide (65 ≤ c ∧ c ≤ 90)) then 1 else 0)
       - lowercasePenalty t - uppercasePenalty t) 10)

/-- One factor record of `this.factors`: a fixed weight and a score. -/
structure Factor where
  weight : ℚ
  score : ℤ
deriving DecidableEq

/-- The six factor records, in the insertion order of the
`this.factors` object literal (src/main.js:1171–1178). -/
structure Factors where
  length : Factor
  hashtags : Factor
  emojis : Factor
  engagement : Factor
  sentiment : Factor
  structureFactor : Factor
deriving DecidableEq

/-- The factors as written by the six analyzers, with the fixed weights of
the constructor (src/main.js:1171–1178). -/
def computeFactors (t : Tweet) : Factors where
  length := ⟨0.2, analyzeLengthFactor t⟩
  hashtags := ⟨0.15, analyzeHashtagFactor t⟩
  emojis := ⟨0.15, analyzeEmojiFactor t⟩
  engagement := ⟨0.2, analyzeEngagementFactor t⟩
  sentiment := ⟨0.15, analyzeSentimentFactor t⟩
  structureFactor := ⟨0.15, analyzeStructureFactor t⟩

/-- `calculateOverallScore` (src/main.js:1402–1412): the weighted sum over
`Object.values(this.factors)` in insertion order, divided by the total
weight, times 10. -/
def calculateOverallScore (f : Factors) : ℚ :=
  (f.length.score * f.length.weight + f.hashtags.score * f.hashtags.weight +
   f.emojis.score * f.emojis.weight + f.engagement.score * f.engagement.weight +
   f.sentiment.score * f.sentiment.weight +
   f.structureFactor.score * f.structureFactor.weight) /
  (f.length.weight + f.hashtags.weight + f.emojis.weight +
   f.engagement.weight + f.sentiment.weight + f.structureFactor.weight) * 10

/-- JavaScript `Math.round`: round half up. -/
def jsRound (q : ℚ) : ℤ := ⌊q + 1 / 2⌋

/-- `getEngagementLevel` (src/main.js:1414–1420), applied to the raw
(unrounded) overall score as in `analyze`. -/
def getEngagementLevel (score : ℚ) : String :=
  if 80 ≤ score then "Very High"
  else if 65 ≤ score then "High"
  else if 50 ≤ score then "Medium"
  else if 35 ≤ score then "Low"
  else "Very Low"

/-- `getReachLevel` (src/main.js:1422–1428). -/
def getReachLevel (score : ℚ) : String :=
  if 80 ≤ score then "Viral Potential"
  else if 65 ≤ score then "High Reach"
  else if 50 ≤ score then "Good Reach"
  else if 35 ≤ score then "Limited Reach"
  else "Low Reach"

/-- The `(name, score)` pairs of `Object.entries(this.factors)` in
insertion order, as used by `generateDetailedAnalysis`. -/
def factorEntries (f : Factors) : List (String × ℤ) :=
  [("length", f.length.score), ("hashtags", f.hashtags.score),
   ("emojis", f.emojis.score), ("engagement", f.engagement.score),
   ("sentiment", f.sentiment.score), ("structure", f.structureFactor.score)]

/-- `generateDetailedAnalysis` (src/main.js:1430–1463). -/
def generateDetailedAnalysis (f : Factors) (score : ℚ) : String :=
  let opening :=
    if 80 ≤ score then
      "Excellent tweet! This has strong viral potential with great engagement factors."
    else if 65 ≤ score then
      "Strong tweet with good engagement potential. Minor improvements could boost performance."
    else if 50 ≤ score then
      "Decent tweet that should perform reasonably well. Consider the suggestions to improve reach."
    else if 35 ≤ score then
      "This tweet needs improvement in several areas to maximize engagement."
    else
      "Significant improvements needed. Consider rewriting with engagement and structure in mind."
  let weakFactors := ((factorEntries f).filter fun e => e.2 < 6).map Prod.fst
  let strongFactors := ((factorEntries f).filter fun e => 8 ≤ e.2).map Prod.fst
  String.intercalate " "
    ([opening] ++
     (if weakFactors.isEmpty then []
      else ["Areas needing improvement: " ++ String.intercalate ", " weakFactors ++ "."]) ++
     (if strongFactors.isEmpty then []
      else ["Strong points: " ++ String.intercalate ", " strongFactors ++ "."]))

/-- `generateSuggestions` (src/main.js:1204–1259): the checklist in source
order, truncated by `suggestions.slice(0, 4)`. -/
def generateSuggestions (t : Tweet) (f : Factors) : List String :=
  ((if f.length.score < 7 then
      (if jsLength t < 50 then
        ["Consider adding more context or details to make your tweet more engaging"]
      else if 200 < jsLength t then
        ["Try shortening your tweet - shorter tweets often get better engagement"]
      else [])
    else []) ++
   (if f.hashtags.score < 7 then
      (if countHashtags t = 0 then
        ["Add 1-2 relevant hashtags to increase discoverability"]
      else if 3 < countHashtags t then
        ["Reduce hashtags to 2-3 for better readability and engagement"]
      else [])
    else []) ++
   (if f.emojis.score < 7 then
      (if emojiCount t = 0 then
        ["Add an emoji or two to make your tweet more visually appealing"]
      else if 3 < emojiCount t then
        ["Consider reducing emojis for better professional appearance"]
      else [])
    else []) ++
   (if f.engagement.score < 7 then
      ["Try asking a question or including a call-to-action to boost engagement",
       "Consider adding words like \x27What do you think?\x27 or \x27Share your experience\x27"]
    else []) ++
   (if f.sentiment.score < 7 then
      ["Try using more positive or exciting language to improve sentiment"]
    else []) ++
   (if f.structureFactor.score < 7 then
      ["Break up long sentences or add line breaks for better readability"]
    else []) ++
   (if calculateOverallScore f < 60 then
      ["Consider sharing a personal story or insight to make it more relatable",
       "Try including numbers or statistics if relevant to your topic"]
    else [])).take 4

/-- The four time-slot strings of `getOptimalPostingTime`
(src/main.js:1466–1471). -/
def times : List String :=
  ["9:00 AM - 10:00 AM (Peak morning engagement)",
   "12:00 PM - 1:00 PM (Lunch break peak)",
   "3:00 PM - 4:00 PM (Afternoon engagement)",
   "7:00 PM - 9:00 PM (Evening social media peak)"]

/-- `getOptimalPostingTime` (src/main.js:1465–1484): evening for a question
mark, else lunch for a hashtag, else morning. -/
def getOptimalPostingTime (t : Tweet) : String :=
  if t.contains 63 then times.getD 3 ""
  else if 0 < countHashtags t then times.getD 1 ""
  else times.getD 0 ""

/-- The record returned by `analyze` (src/main.js:1193–1201). -/
structure AnalysisResult where
  score : ℤ
  engagement : String
  reach : String
  analysis : String
  suggestions : List String
  optimalTime : String
  factors : Factors
deriving DecidableEq

/-- `analyze` (src/main.js:1181–1202): runs the six analyzers, aggregates,
derives labels from the raw score, and assembles the result. -/
def analyze (t : Tweet) : AnalysisResult :=
  let f := computeFactors t
  let score := calculateOverallScore f
  { score := jsRound score
    engagement := getEngagementLevel score
    reach := getReachLevel score
    analysis := generateDetailedAnalysis f score
    suggestions := generateSuggestions t f
    optimalTime := getOptimalPostingTime t
    factors := f }

/-- Written from the words of claim C2: the length bands in the claimed
first-match-wins order. -/
def lengthBandSpec (count : Nat) : ℤ :=
  if 71 ≤ count ∧ count ≤ 100 then 10
  else if 50 ≤ count ∧ count ≤ 140 then 8
  else if 140 ≤ count ∧ count ≤ 200 then 7
  else if count < 30 then 4
  else if 250 < count then 3
  else 5

/-- Written from the words of claim C10: a hashtag is counted exactly at
each position where `#` is immediately followed by an ASCII word
character. -/
def specHashtagCount : Tweet → Nat
  | [] => 0
  | [_] => 0
  | a :: b :: rest =>
    (if a = 35 ∧ isWordChar b then 1 else 0) + specHashtagCount (b :: rest)

/-- Written from the words of claim C6 (amended): the suggestion checklist
evaluated in the fixed order Length, Hashtags, Emojis, Engagement (two
entries), Sentiment, Structure, then the two generic fallbacks, truncated
to the first 4 collected entries.  Besides the six factor scores and the
aggregate it also consumes the raw UTF-16 length, hashtag count and emoji
count of the text (the amendment forced by the counterexample). -/
def suggestionChecklistSpec (lengthS hashtagS emojiS engagementS sentimentS structureS : ℤ)
    (aggregate : ℚ) (len hashtagCnt emojiCnt : Nat) : List String :=
  ((if lengthS < 7 then
      (if len < 50 then
        ["Consider adding more context or details to make your tweet more engaging"]
      else if 200 < len then
        ["Try shortening your tweet - shorter tweets often get better engagement"]
      else [])
    else []) ++
   (if hashtagS < 7 then
      (if hashtagCnt = 0 then
        ["Add 1-2 relevant hashtags to increase discoverability"]
      else if 3 < hashtagCnt then
        ["Reduce hashtags to 2-3 for better readability and engagement"]
      else [])
    else []) ++
   (if emojiS < 7 then
      (if emojiCnt = 0 then
        ["Add an emoji or two to make your tweet more visually appealing"]
      else if 3 < emojiCnt then
        ["Consider reducing emojis for better professional appearance"]
      else [])
    else []) ++
   (if engagementS < 7 then
      ["Try asking a question or including a call-to-action to boost engagement",
       "Consider adding words like \x27What do you think?\x27 or \x27Share your experience\x27"]
    else []) ++
   (if sentimentS < 7 then
      ["Try using more positive or exciting language to improve sentiment"]
    else []) ++
   (if structureS < 7 then
      ["Break up long sentences or add line breaks for better readability"]
    else []) ++
   (if aggregate < 60 then
      ["Consider sharing a personal story or insight to make it more relatable",
       "Try including numbers or statistics if relevant to your topic"]
    else [])).take 4

/-- ASCII cased letter, the only code points moved by the modelled case
mappings. -/
def isAsciiLetter (n : Nat) : Prop := (65 ≤ n ∧ n ≤ 90) ∨ (97 ≤ n ∧ n ≤ 122)

/-- Bounds of the length factor score. -/
theorem analyzeLengthFactor_bounds (t : Tweet) :
    1 ≤ analyzeLengthFactor t ∧ analyzeLengthFactor t ≤ 10 := by
  unfold analyzeLengthFactor
  split_ifs <;> norm_num

/-- Bounds of the hashtag factor score. -/
theorem analyzeHashtagFactor_bounds (t : Tweet) :
    1 ≤ analyzeHashtagFactor t ∧ analyzeHashtagFactor t ≤ 10 := by
  unfold analyzeHashtagFactor
  split_ifs <;> norm_num

/-- Bounds of the emoji factor score. -/
theorem analyzeEmojiFactor_bounds (t : Tweet) :
    1 ≤ analyzeEmojiFactor t ∧ analyzeEmojiFactor t ≤ 10 := by
  unfold analyzeEmojiFactor
  split_ifs <;> norm_num

/-- Bounds of the engagement factor score: the base is 5 and only bonuses
are added before the clamp at 10. -/
theorem analyzeEngagementFactor_bounds (t : Tweet) :
    5 ≤ analyzeEngagementFactor t ∧ analyzeEngagementFactor t ≤ 10 := by
  unfold analyzeEngagementFactor
  constructor
  · apply le_min _ (by norm_num)
    split_ifs <;> norm_num
  · exact min_le_right _ _

/-- Bounds of the sentiment factor score. -/
theorem analyzeSentimentFactor_bounds (t : Tweet) :
    1 ≤ analyzeSentimentFactor t ∧ analyzeSentimentFactor t ≤ 10 := by
  unfold analyzeSentimentFactor
  exact ⟨le_max_left _ _, max_le_iff.mpr ⟨by norm_num, min_le_right _ _⟩⟩

/-- Bounds of the structure factor score. -/
theorem analyzeStructureFactor_bounds (t : Tweet) :
    1 ≤ analyzeStructureFactor t ∧ analyzeStructureFactor t ≤ 10 := by
  unfold analyzeStructureFactor
  exact ⟨le_max_left _ _, max_le_iff.mpr ⟨by norm_num, min_le_right _ _⟩⟩

/-- The overall score as an explicit linear combination: the weights sum to
exactly 1, so the division drops out. -/
theorem calculateOverallScore_eq (t : Tweet) :
    calculateOverallScore (computeFactors t) =
      2 * (analyzeLengthFactor t : ℚ) + 3 / 2 * (analyzeHashtagFactor t : ℚ) +
      3 / 2 * (analyzeEmojiFactor t : ℚ) + 2 * (analyzeEngagementFactor t : ℚ) +
      3 / 2 * (analyzeSentimentFactor t : ℚ) + 3 / 2 * (analyzeStructureFactor t : ℚ) := by
  unfold calculateOverallScore computeFactors
  norm_num
  ring

/-- Helper: a list is fixed by mapping `f` iff `f` fixes every element. -/
theorem eq_map_iff (f : Nat → Nat) (t : List Nat) :
    t = t.map f ↔ ∀ c ∈ t, f c = c := by
  induction t with
  | nil => simp
  | cons h tl ih =>
    simp only [List.map_cons, List.mem_cons]
    constructor
    · rintro he c (rfl | hc)
      · exact (List.cons_eq_cons.mp he).1.symm
      · exact (ih.mp (List.cons_eq_cons.mp he).2) c hc
    · intro hall
      rw [List.cons_eq_cons]
      exact ⟨(hall h (Or.inl rfl)).symm, ih.mpr fun c hc => hall c (Or.inr hc)⟩

/-- Helper: a code point is fixed by both ASCII case maps iff it is not an
ASCII letter. -/
theorem case_fixed_iff (c : Nat) :
    (lowerChar c = c ∧ upperChar c = c) ↔ ¬ isAsciiLetter c := by
  unfold lowerChar upperChar isAsciiLetter
  split_ifs <;> omega

/-- C1: for every input string, the overall score returned by `analyze`
equals the weighted average of the six factor scores — the weighted sum
divided by the weight sum, times 10 — rounded by `Math.round`, and this
value always lies in [10, 100]. -/
theorem overall_score_is_rounded_weighted_average (t : Tweet) :
    (analyze t).score = jsRound (calculateOverallScore (computeFactors t)) ∧
    10 ≤ (analyze t).score ∧ (analyze t).score ≤ 100 := by
  obtain ⟨hL1, hL2⟩ := analyzeLengthFactor_bounds t
  obtain ⟨hH1, hH2⟩ := analyzeHashtagFactor_bounds t
  obtain ⟨hE1, hE2⟩ := analyzeEmojiFactor_bounds t
  obtain ⟨hG1, hG2⟩ := analyzeEngagementFactor_bounds t
  obtain ⟨hS1, hS2⟩ := analyzeSentimentFactor_bounds t
  obtain ⟨hT1, hT2⟩ := analyzeStructureFactor_bounds t
  have cL1 : (1 : ℚ) ≤ (analyzeLengthFactor t : ℚ) := by exact_mod_cast hL1
  have cL2 : (analyzeLengthFactor t : ℚ) ≤ 10 := by exact_mod_cast hL2
  have cH1 : (1 : ℚ) ≤ (analyzeHashtagFactor t : ℚ) := by exact_mod_cast hH1
  have cH2 : (analyzeHashtagFactor t : ℚ) ≤ 10 := by exact_mod_cast hH2
  have cE1 : (1 : ℚ) ≤ (analyzeEmojiFactor t : ℚ) := by exact_mod_cast hE1
  have cE2 : (analyzeEmojiFactor t : ℚ) ≤ 10 := by exact_mod_cast hE2
  have cG1 : (5 : ℚ) ≤ (analyzeEngagementFactor t : ℚ) := by exact_mod_cast hG1
  have cG2 : (analyzeEngagementFactor t : ℚ) ≤ 10 := by exact_mod_cast hG2
  have cS1 : (1 : ℚ) ≤ (analyzeSentimentFactor t : ℚ) := by exact_mod_cast hS1
  have cS2 : (analyzeSentimentFactor t : ℚ) ≤ 10 := by exact_mod_cast hS2
  have cT1 : (1 : ℚ) ≤ (analyzeStructureFactor t : ℚ) := by exact_mod_cast hT1
  have cT2 : (analyzeStructureFactor t : ℚ) ≤ 10 := by exact_mod_cast hT2
  have hq := calculateOverallScore_eq t
  have q10 : (10 : ℚ) ≤ calculateOverallScore (computeFactors t) := by
    rw [hq]; linarith
  have q100 : calculateOverallScore (computeFactors t) ≤ 100 := by
    rw [hq]; linarith
  refine ⟨rfl, ?_, ?_⟩
  · show 10 ≤ jsRound (calculateOverallScore (computeFactors t))
    unfold jsRound
    rw [Int.le_floor]
    push_cast
    linarith
  · show jsRound (calculateOverallScore (computeFactors t)) ≤ 100
    unfold jsRound
    have hlt : ⌊calculateOverallScore (computeFactors t) + 1 / 2⌋ < 101 :=
      Int.floor_lt.mpr (by push_cast; linarith)
    omega

/-- C2: the Length factor score is assigned by first-match-wins over the
bands in the claimed order; every UTF-16 count in [71, 100] scores 10 and
count exactly 140 scores 8 (the earlier band wins). -/
theorem length_factor_first_match_bands (t : Tweet) :
    analyzeLengthFactor t = lengthBandSpec (jsLength t) ∧
    (71 ≤ jsLength t ∧ jsLength t ≤ 100 → analyzeLengthFactor t = 10) ∧
    (jsLength t = 140 → analyzeLengthFactor t = 8) := by
  refine ⟨rfl, ?_, ?_⟩
  · intro h
    unfold analyzeLengthFactor
    rw [if_pos h]
  · intro h
    unfold analyzeLengthFactor
    split_ifs <;> omega

set_option maxRecDepth 100000 in
/-- Witness for C2 at concrete inputs of lengths 140 and 90. -/
theorem length_factor_first_match_bands_witness :
    jsLength (List.replicate 140 97) = 140 ∧
    analyzeLengthFactor (List.replicate 140 97) = 8 ∧
    jsLength (List.replicate 90 97) = 90 ∧
    analyzeLengthFactor (List.replicate 90 97) = 10 :=
  ⟨by decide, (length_factor_first_match_bands _).2.2 (by decide), by decide,
   (length_factor_first_match_bands _).2.1 (by decide)⟩

/-- C3: the Engagement factor score is
`min(10, 5 + 2·[q ≥ 1] + 1·[excl ∈ 1..2] + 2·[vocab ≥ 1] + 1·[vocab ≥ 3])`,
the vocabulary has 29 entries, and nothing is ever subtracted (the score
stays in [5, 10]). -/
theorem engagement_factor_formula (t : Tweet) :
    analyzeEngagementFactor t =
      min 10 (5 + (if 1 ≤ questionMarkCount t then 2 else 0)
        + (if exclamationMarkCount t = 1 ∨ exclamationMarkCount t = 2 then 1 else 0)
        + (if 1 ≤ engagementWordCount t then 2 else 0)
        + (if 3 ≤ engagementWordCount t then 1 else 0)) ∧
    engagementWords.length = 29 ∧
    5 ≤ analyzeEngagementFactor t ∧ analyzeEngagementFactor t ≤ 10 := by
  refine ⟨?_, by decide, (analyzeEngagementFactor_bounds t).1,
    (analyzeEngagementFactor_bounds t).2⟩
  unfold analyzeEngagementFactor
  split_ifs <;> omega

/-- C4: the Sentiment factor score is `8 + min(pos, 2)` when positives
dominate, `4 − min(neg, 2)` (never below 2) when negatives dominate, 5 on a
tie, and always lies in [1, 10]. -/
theorem sentiment_factor_cases (t : Tweet) :
    (negativeCount t < positiveCount t →
        analyzeSentimentFactor t = 8 + min (positiveCount t : ℤ) 2) ∧
    (positiveCount t < negativeCount t →
        analyzeSentimentFactor t = 4 - min (negativeCount t : ℤ) 2 ∧
        2 ≤ analyzeSentimentFactor t) ∧
    (positiveCount t = negativeCount t → analyzeSentimentFactor t = 5) ∧
    1 ≤ analyzeSentimentFactor t ∧ analyzeSentimentFactor t ≤ 10 := by
  refine ⟨?_, ?_, ?_, analyzeSentimentFactor_bounds t⟩ <;>
    intro h <;> unfold analyzeSentimentFactor <;> split_ifs <;> omega

/-- Witness for C4: a positive-dominant, a negative-dominant and a tie
input. -/
theorem sentiment_factor_cases_witness :
    analyzeSentimentFactor (str "great") = 8 + min ((positiveCount (str "great") : ℤ)) 2 ∧
    (analyzeSentimentFactor (str "awful") = 4 - min ((negativeCount (str "awful")) : ℤ) 2 ∧
      2 ≤ analyzeSentimentFactor (str "awful")) ∧
    analyzeSentimentFactor ([] : Tweet) = 5 :=
  ⟨(sentiment_factor_cases _).1 (by decide), (sentiment_factor_cases _).2.1 (by decide),
   (sentiment_factor_cases _).2.2.1 (by decide)⟩

/-- C5: `analyze` is a total function on strings (every analyzer is a total
Lean function, so every input yields a well-formed result with all six
factor scores in [1, 10] and at most 4 suggestions), and on the empty
string it returns overall score 45 ≥ 0 with engagement level in the Low
band. -/
theorem analyze_total_wellformed_empty :
    (∀ t : Tweet,
      (1 ≤ (analyze t).factors.length.score ∧ (analyze t).factors.length.score ≤ 10) ∧
      (1 ≤ (analyze t).factors.hashtags.score ∧ (analyze t).factors.hashtags.score ≤ 10) ∧
      (1 ≤ (analyze t).factors.emojis.score ∧ (analyze t).factors.emojis.score ≤ 10) ∧
      (1 ≤ (analyze t).factors.engagement.score ∧ (analyze t).factors.engagement.score ≤ 10) ∧
      (1 ≤ (analyze t).factors.sentiment.score ∧ (analyze t).factors.sentiment.score ≤ 10) ∧
      (1 ≤ (analyze t).factors.structureFactor.score ∧
        (analyze t).factors.structureFactor.score ≤ 10) ∧
      (analyze t).suggestions.length ≤ 4) ∧
    (analyze ([] : Tweet)).score = 45 ∧ 0 ≤ (analyze ([] : Tweet)).score ∧
    (analyze ([] : Tweet)).engagement = "Low" := by
  have e1 : analyzeLengthFactor ([] : Tweet) = 4 := by decide
  have e2 : analyzeHashtagFactor ([] : Tweet) = 6 := by decide
  have e3 : analyzeEmojiFactor ([] : Tweet) = 6 := by decide
  have e4 : analyzeEngagementFactor ([] : Tweet) = 5 := by decide
  have e5 : analyzeSentimentFactor ([] : Tweet) = 5 := by decide
  have e6 : analyzeStructureFactor ([] : Tweet) = 1 := by decide
  have hq : calculateOverallScore (computeFactors ([] : Tweet)) = 45 := by
    rw [calculateOverallScore_eq, e1, e2, e3, e4, e5, e6]
    norm_num
  refine ⟨?_, ?_, ?_, ?_⟩
  · intro t
    have hG := analyzeEngagementFactor_bounds t
    refine ⟨analyzeLengthFactor_bounds t, analyzeHashtagFactor_bounds t,
      analyzeEmojiFactor_bounds t, ⟨le_trans (by norm_num) hG.1, hG.2⟩,
      analyzeSentimentFactor_bounds t, analyzeStructureFactor_bounds t, ?_⟩
    show (List.take 4 _).length ≤ 4
    simp [List.length_take]
  · show jsRound (calculateOverallScore (computeFactors ([] : Tweet))) = 45
    rw [hq]
    unfold jsRound
    norm_num
  · show (0 : ℤ) ≤ jsRound (calculateOverallScore (computeFactors ([] : Tweet)))
    rw [show jsRound (calculateOverallScore (computeFactors ([] : Tweet))) = 45 from by
      rw [hq]; unfold jsRound; norm_num]
    norm_num
  · show getEngagementLevel (calculateOverallScore (computeFactors ([] : Tweet))) = "Low"
    rw [hq]
    unfold getEngagementLevel
    norm_num

set_option maxRecDepth 400000 in
/-- Counterexample to C6 as stated: 40 copies and 201 copies of `z` produce
identical factor scores and identical aggregate, yet different suggestion
lists — the Length suggestion inspects the raw text length, which is not a
function of the six factor scores and the aggregate. -/
theorem suggestions_not_score_function_cex :
    computeFactors (List.replicate 40 122) = computeFactors (List.replicate 201 122) ∧
    calculateOverallScore (computeFactors (List.replicate 40 122)) =
      calculateOverallScore (computeFactors (List.replicate 201 122)) ∧
    (analyze (List.replicate 40 122)).suggestions ≠
      (analyze (List.replicate 201 122)).suggestions := by
  have hfA : computeFactors (List.replicate 40 122) =
      ⟨⟨0.2, 5⟩, ⟨0.15, 6⟩, ⟨0.15, 6⟩, ⟨0.2, 5⟩, ⟨0.15, 5⟩, ⟨0.15, 3⟩⟩ := by
    unfold computeFactors
    rw [show analyzeLengthFactor (List.replicate 40 122) = 5 from by decide,
      show analyzeHashtagFactor (List.replicate 40 122) = 6 from by decide,
      show analyzeEmojiFactor (List.replicate 40 122) = 6 from by decide,
      show analyzeEngagementFactor (List.replicate 40 122) = 5 from by decide,
      show analyzeSentimentFactor (List.replicate 40 122) = 5 from by decide,
      show analyzeStructureFactor (List.replicate 40 122) = 3 from by decide]
  have hfB : computeFactors (List.replicate 201 122) =
      ⟨⟨0.2, 5⟩, ⟨0.15, 6⟩, ⟨0.15, 6⟩, ⟨0.2, 5⟩, ⟨0.15, 5⟩, ⟨0.15, 3⟩⟩ := by
    unfold computeFactors
    rw [show analyzeLengthFactor (List.replicate 201 122) = 5 from by decide,
      show analyzeHashtagFactor (List.replicate 201 122) = 6 from by decide,
      show analyzeEmojiFactor (List.replicate 201 122) = 6 from by decide,
      show analyzeEngagementFactor (List.replicate 201 122) = 5 from by decide,
      show analyzeSentimentFactor (List.replicate 201 122) = 5 from by decide,
      show analyzeStructureFactor (List.replicate 201 122) = 3 from by decide]
  have hA : (analyze (List.replicate 40 122)).suggestions.head? =
      some "Consider adding more context or details to make your tweet more engaging" := by
    show (generateSuggestions (List.replicate 40 122)
      (computeFactors (List.replicate 40 122))).head? = _
    rw [hfA]
    unfold generateSuggestions calculateOverallScore
    dsimp only
    rw [show jsLength (List.replicate 40 122) = 40 from by decide,
      show countHashtags (List.replicate 40 122) = 0 from by decide,
      show emojiCount (List.replicate 40 122) = 0 from by decide]
    norm_num [List.take]
  have hB : (analyze (List.replicate 201 122)).suggestions.head? =
      some "Try shortening your tweet - shorter tweets often get better engagement" := by
    show (generateSuggestions (List.replicate 201 122)
      (computeFactors (List.replicate 201 122))).head? = _
    rw [hfB]
    unfold generateSuggestions calculateOverallScore
    dsimp only
    rw [show jsLength (List.replicate 201 122) = 201 from by decide,
      show countHashtags (List.replicate 201 122) = 0 from by decide,
      show emojiCount (List.replicate 201 122) = 0 from by decide]
    norm_num [List.take]
  refine ⟨hfA.trans hfB.symm, by rw [hfA.trans hfB.symm], fun h => ?_⟩
  rw [h, hB] at hA
  exact absurd hA (by decide)

/-- C6 (amended): the suggestions list is the fixed checklist evaluated in
the order Length, Hashtags, Emojis, Engagement (two entries when its score
is below 7), Sentiment, Structure, then two generic fallbacks when the
aggregate is below 60, truncated to the first 4 entries — a deterministic
function of the six factor scores, the aggregate, and the raw length,
hashtag count and emoji count of the text; it never exceeds 4 entries. -/
theorem suggestions_checklist_deterministic (t : Tweet) :
    (analyze t).suggestions =
      suggestionChecklistSpec (analyzeLengthFactor t) (analyzeHashtagFactor t)
        (analyzeEmojiFactor t) (analyzeEngagementFactor t) (analyzeSentimentFactor t)
        (analyzeStructureFactor t) (calculateOverallScore (computeFactors t))
        (jsLength t) (countHashtags t) (emojiCount t) ∧
    (analyze t).suggestions.length ≤ 4 := by
  refine ⟨rfl, ?_⟩
  show (List.take 4 _).length ≤ 4
  simp [List.length_take]

/-- Counterexample to C7 as stated: the empty string equals its own
lowercased form, so the source applies the −2 penalty to it (and the −3
penalty as well), leaving the empty string with structure score
max(1, 5 − 2 − 3) = 1; the claim says the empty string receives no −2
penalty. -/
theorem lowercase_penalty_empty_cex :
    toLowerCase ([] : Tweet) = [] ∧ lowercasePenalty ([] : Tweet) = 2 ∧
    uppercasePenalty ([] : Tweet) = 3 ∧ analyzeStructureFactor ([] : Tweet) = 1 := by
  refine ⟨rfl, by decide, by decide, by decide⟩

/-- C7 (amended): the −2 penalty fires exactly when the text equals its own
lowercased form (the empty string included), and the −3 penalty,
evaluated independently, fires exactly when the text equals its own
uppercased form — these two equivalences restate the source conditions and
hold under any case mapping.  The joint characterisation is stated only for
text confined to ASCII, where the modelled case maps coincide with the
full Unicode maps of JavaScript: there, both penalties fire together
exactly when the text contains no cased letter, the empty string included.
(Outside ASCII the modelled maps fix every code point, so an unrestricted
equivalence would overstate the program: JavaScript lowercases and
uppercases non-ASCII letters as well, and on a string such as a single
small a-diaeresis only the −2 penalty fires.) -/
theorem structure_penalties_characterization (t : Tweet) :
    (lowercasePenalty t = 2 ↔ t = toLowerCase t) ∧
    (uppercasePenalty t = 3 ↔ t = toUpperCase t) ∧
    ((∀ c ∈ t, c < 128) →
      ((lowercasePenalty t = 2 ∧ uppercasePenalty t = 3) ↔ ∀ c ∈ t, ¬ isAsciiLetter c)) := by
  have hl : lowercasePenalty t = 2 ↔ t = toLowerCase t := by
    unfold lowercasePenalty
    split_ifs with h
    · exact iff_of_true rfl h
    · exact iff_of_false (by norm_num) h
  have hu : uppercasePenalty t = 3 ↔ t = toUpperCase t := by
    unfold uppercasePenalty
    split_ifs with h
    · exact iff_of_true rfl h
    · exact iff_of_false (by norm_num) h
  refine ⟨hl, hu, fun _ => ?_⟩
  rw [hl, hu]
  unfold toLowerCase toUpperCase
  rw [eq_map_iff, eq_map_iff]
  constructor
  · rintro ⟨h1, h2⟩ c hc
    exact (case_fixed_iff c).mp ⟨h1 c hc, h2 c hc⟩
  · intro h
    exact ⟨fun c hc => ((case_fixed_iff c).mpr (h c hc)).1,
           fun c hc => ((case_fixed_iff c).mpr (h c hc)).2⟩

/-- Witness for C7 (amended): the ASCII digit string receives both
penalties and contains no cased letter. -/
theorem structure_penalties_characterization_witness :
    lowercasePenalty (str "123") = 2 ∧ uppercasePenalty (str "123") = 3 :=
  ((structure_penalties_characterization (str "123")).2.2 (by decide)).mpr
    (by unfold isAsciiLetter; decide)

set_option maxRecDepth 100000 in
/-- Counterexample to C8 as stated: 29 rocket emojis (code point `0x1F680`)
are 29 Unicode scalar values — the claim then predicts the below-30 band
and score 4 — but the source counts UTF-16 code units, giving length 58 and
the 50–140 band with score 8. -/
theorem length_count_utf16_cex :
    (List.replicate 29 128640).length = 29 ∧
    jsLength (List.replicate 29 128640) = 58 ∧
    analyzeLengthFactor (List.replicate 29 128640) = 8 ∧
    lengthBandSpec 29 = 4 := by
  refine ⟨by decide, by decide, by decide, by decide⟩

/-- C8 (amended): the character count used by the Length factor analyzer is
the number of UTF-16 code units — each scalar value below `0x10000` counts
1 and each supplementary-plane scalar value (such as an emoji) counts 2 —
so it agrees with the scalar-value count exactly on texts confined to the
basic multilingual plane, and in general lies between the scalar count and
twice the scalar count. -/
theorem jsLength_utf16_code_units (t : Tweet) :
    jsLength t = (t.map fun n => if n < 65536 then 1 else 2).sum ∧
    ((∀ n ∈ t, n < 65536) → jsLength t = t.length) ∧
    t.length ≤ jsLength t ∧ jsLength t ≤ 2 * t.length := by
  refine ⟨rfl, ?_, ?_⟩
  · induction t with
    | nil => intro _; rfl
    | cons c tl ih =>
      intro h
      have hc : c < 65536 := h c (List.mem_cons_self c tl)
      have ht := ih fun n hn => h n (List.mem_cons_of_mem c hn)
      have hcu : utf16Len c = 1 := by
        unfold utf16Len
        rw [if_pos hc]
      simp only [jsLength, List.map_cons, List.sum_cons, List.length_cons] at ht ⊢
      omega
  · induction t with
    | nil => simp [jsLength]
    | cons c tl ih =>
      have h1 : 1 ≤ utf16Len c ∧ utf16Len c ≤ 2 := by
        unfold utf16Len
        split_ifs <;> omega
      simp only [jsLength, List.map_cons, List.sum_cons, List.length_cons] at ih ⊢
      omega

/-- Witness for C8 (amended) on a basic-multilingual-plane input. -/
theorem jsLength_utf16_code_units_witness :
    jsLength (str "ab") = (str "ab").length :=
  (jsLength_utf16_code_units _).2.1 (by decide)

/-- C9: the optimal-posting-time heuristic returns the evening slot for a
question mark, else the lunch slot for at least one hashtag, else the
morning slot; the afternoon slot is never returned. -/
theorem optimal_posting_time_decision_tree (t : Tweet) :
    getOptimalPostingTime t =
      (if t.contains 63 then "7:00 PM - 9:00 PM (Evening social media peak)"
       else if 0 < countHashtags t then "12:00 PM - 1:00 PM (Lunch break peak)"
       else "9:00 AM - 10:00 AM (Peak morning engagement)") ∧
    getOptimalPostingTime t ≠ "3:00 PM - 4:00 PM (Afternoon engagement)" := by
  constructor
  · rfl
  · unfold getOptimalPostingTime
    split_ifs <;> decide

/-- Helper: dropping a leading word-character run does not change the
claimed hashtag-position count, because a word character is never `#`. -/
theorem specHashtagCount_dropWhile (l : Tweet) :
    specHashtagCount (l.dropWhile isWordChar) = specHashtagCount l := by
  induction l with
  | nil => rfl
  | cons h tl ih =>
    by_cases hp : isWordChar h
    · rw [List.dropWhile_cons_of_pos hp, ih]
      cases tl with
      | nil => rfl
      | cons b r =>
        have h35 : ¬(h = 35 ∧ isWordChar b = true) := by
          rintro ⟨rfl, _⟩
          exact absurd hp (by decide)
        rw [show specHashtagCount (h :: b :: r) =
            (if h = 35 ∧ isWordChar b = true then 1 else 0) + specHashtagCount (b :: r) from rfl,
          if_neg h35, Nat.zero_add]
    · rw [List.dropWhile_cons_of_neg hp]

/-- Helper: with enough fuel, the regex scan computes exactly the claimed
position count. -/
theorem countHashtagsAux_eq_spec :
    ∀ (fuel : Nat) (l : Tweet), l.length ≤ fuel →
      countHashtagsAux fuel l = specHashtagCount l := by
  intro fuel
  induction fuel with
  | zero =>
    intro l hl
    have h0 : l = [] := List.eq_nil_of_length_eq_zero (Nat.le_zero.mp hl)
    subst h0
    rfl
  | succ n ih =>
    intro l hl
    rcases l with _ | ⟨c, _ | ⟨d, rest⟩⟩
    · rfl
    · rfl
    · show (if c = 35 ∧ isWordChar d = true then
          1 + countHashtagsAux n ((d :: rest).dropWhile isWordChar)
        else countHashtagsAux n (d :: rest)) = _
      by_cases hc : c = 35 ∧ isWordChar d = true
      · rw [if_pos hc]
        have hlen : ((d :: rest).dropWhile isWordChar).length ≤ n := by
          have h2 := length_dropWhile_le isWordChar (d :: rest)
          simp only [List.length_cons] at hl h2 ⊢
          omega
        rw [ih _ hlen, specHashtagCount_dropWhile,
          show specHashtagCount (c :: d :: rest) =
            (if c = 35 ∧ isWordChar d = true then 1 else 0) + specHashtagCount (d :: rest)
            from rfl,
          if_pos hc]
      · rw [if_neg hc]
        have hlen : (d :: rest).length ≤ n := by
          simp only [List.length_cons] at hl ⊢
          omega
        rw [ih _ hlen,
          show specHashtagCount (c :: d :: rest) =
            (if c = 35 ∧ isWordChar d = true then 1 else 0) + specHashtagCount (d :: rest)
            from rfl,
          if_neg hc, Nat.zero_add]

/-- C10: a hashtag is counted exactly at each position where `#` is
immediately followed by an ASCII word character (`specHashtagCount` states
the claim, `countHashtags` embeds the source regex scan); a `#` followed by
a space, punctuation, an emoji or a non-ASCII letter contributes nothing;
and the hashtag analyzer and the posting-time heuristic consume the text
only through this one count (together with, for the heuristic, the
question-mark test). -/
theorem hashtag_token_characterization :
    (∀ t : Tweet, countHashtags t = specHashtagCount t) ∧
    (∀ t u : Tweet, countHashtags t = countHashtags u →
        analyzeHashtagFactor t = analyzeHashtagFactor u) ∧
    (∀ t u : Tweet, countHashtags t = countHashtags u →
        List.contains t 63 = List.contains u 63 →
        getOptimalPostingTime t = getOptimalPostingTime u) ∧
    countHashtags (str "#") = 0 ∧ countHashtags (str "# tag") = 0 ∧
    countHashtags (str "#!x") = 0 ∧ countHashtags (str "#🚀") = 0 ∧
    countHashtags (str "#és") = 0 ∧ countHashtags (str "#a") = 1 ∧
    countHashtags (str "#_1") = 1 ∧ countHashtags (str "tag #x2") = 1 := by
  refine ⟨fun t => countHashtagsAux_eq_spec t.length t le_rfl, ?_, ?_, by decide, by decide,
    by decide, by decide, by decide, by decide, by decide, by decide⟩
  · intro t u h
    unfold analyzeHashtagFactor
    rw [h]
  · intro t u h hq
    unfold getOptimalPostingTime
    rw [h, hq]

/-- Witness for C10: the congruence components applied at concrete inputs. -/
theorem hashtag_token_characterization_witness :
    analyzeHashtagFactor (str "#a") = analyzeHashtagFactor (str "#b") ∧
    getOptimalPostingTime (str "abc") = getOptimalPostingTime (str "xyz") :=
  ⟨hashtag_token_characterization.2.1 _ _ (by decide),
   hashtag_token_characterization.2.2.1 _ _ (by decide) (by decide)⟩

end TweetPredictor
